import Mathlib

/-!
Verification of the code-generation-to-execution pipeline of the
AI Data Visualization Agent (`ai_data_visualisation_agent.py`).

Strings are modelled as `List Char`.  The regular expression
`re.compile(r"```python\n(.*?)\n```", re.DOTALL)` is modelled by an
executable left-to-right search (`pattern_search`): Python's `re.search`
returns the match with the leftmost starting position, and the lazy
group `(.*?)` makes the match at that position end at the earliest
possible closing fence.
-/

/-- The opening fence recognised by the regex: three backticks, the tag
`python`, and a newline. -/
def opener : List Char := "```python\n".toList

/-- The closing fence recognised by the regex: a newline followed by
three backticks. -/
def closer : List Char := "\n```".toList

/-- Index of the first occurrence of `pat` as a contiguous sublist of
`s` (`none` when there is no occurrence). -/
def findOcc (pat : List Char) : List Char → Option Nat
  | [] => if pat.isPrefixOf ([] : List Char) then some 0 else none
  | c :: rest =>
      if pat.isPrefixOf (c :: rest) then some 0
      else (findOcc pat rest).map (· + 1)

/-- `pattern.search(s)`, returning group 1: scan left to right for an
occurrence of the opening fence that is followed (lazily, so: as early
as possible) by a closing fence; return the text in between. -/
def pattern_search : List Char → Option (List Char)
  | [] => none
  | c :: rest =>
      if opener.isPrefixOf (c :: rest) then
        match findOcc closer ((c :: rest).drop opener.length) with
        | some k => some (((c :: rest).drop opener.length).take k)
        | none => pattern_search rest
      else pattern_search rest

/-- `match_code_blocks(llm_response)`: `match.group(1) if match else ""`. -/
def match_code_blocks (llm_response : List Char) : List Char :=
  match pattern_search llm_response with
  | some code => code
  | none => []

/-- Concrete first-block witness input: text before the first fence. -/
def w1pre : List Char := "Intro: ".toList

/-- Concrete first-block witness input: interior of the first block. -/
def w1body : List Char := "print(1)".toList

/-- Concrete first-block witness input: text after the first block,
containing a second python-tagged block. -/
def w1post : List Char := "\nmore\n```python\nprint(2)\n```".toList

/-- Concrete no-python-block witness input: a js-tagged fence only. -/
def w7reply : List Char := "Sure! Here is some JavaScript instead:\n```js\nconsole.log(2);\n```\n".toList

/-- A Python runtime value as far as the duck-typed probes care: it can
be `None`, a string, or some other object; only its truthiness and
identity matter to the pipeline. -/
inductive PyVal where
  | none_v : PyVal
  | str_v : List Char → PyVal
  | obj_v : Nat → PyVal
deriving DecidableEq

/-- Python truthiness of a probed attribute value: `None` is falsy, a
string is truthy iff non-empty, any other object is truthy. -/
def PyVal.truthy : PyVal → Bool
  | .none_v => false
  | .str_v s => !s.isEmpty
  | .obj_v _ => true

/-- One structured value returned by a sandbox execution, described by
the optional capabilities the `main` loop probes: a `png` attribute, a
`figure` attribute, a `show` attribute (named `showAttr` because `show`
is a Lean keyword), and whether it is a `pd.DataFrame`/`pd.Series`.
`some v` means `hasattr(result, ...)` holds with attribute value `v`. -/
structure Artifact where
  png : Option PyVal
  figure : Option PyVal
  showAttr : Option PyVal
  tabular : Bool
deriving DecidableEq

/-- The condition of the first probe in `main`'s rendering loop:
`hasattr(result, 'png') and result.png`. -/
def png_truthy (r : Artifact) : Bool :=
  match r.png with
  | some v => v.truthy
  | none => false

/-- The rendering category `main` assigns to one artifact. -/
inductive Category where
  | image
  | figure
  | interactiveChart
  | tabular
  | raw
deriving DecidableEq

/-- The classification chain in `main`'s rendering loop (lines 156-167
of the source): `if hasattr(result, 'png') and result.png: st.image ...
elif hasattr(result, 'figure'): st.pyplot ... elif hasattr(result,
'show'): st.plotly_chart ... elif isinstance(result, (pd.DataFrame,
pd.Series)): st.dataframe ... else: st.write`. -/
def classify_result (r : Artifact) : Category :=
  if png_truthy r then Category.image
  else if r.figure.isSome then Category.figure
  else if r.showAttr.isSome then Category.interactiveChart
  else if r.tabular then Category.tabular
  else Category.raw

/-- The object returned by `e2b_code_interpreter.run_code(code)`:
an optional runtime error and the ordered structured results. -/
structure Execution where
  error : Option (List Char)
  results : List Artifact
deriving DecidableEq

/-- The observable behaviour of one `run_code` call: the returned
execution object plus the text the call wrote to stdout/stderr (which
`code_interpret` captures via `redirect_stdout`/`redirect_stderr`). -/
structure SandboxRun where
  exec : Execution
  captured_stdout : List Char
  captured_stderr : List Char
deriving DecidableEq

/-- What `code_interpret` prints to the host's own stderr and stdout
(its diagnostic channels), one entry per `print` call. -/
structure Diagnostics where
  host_stderr : List (List Char)
  host_stdout : List (List Char)
deriving DecidableEq

/-- `code_interpret(e2b_code_interpreter, code)`, with the sandbox
call's behaviour passed in explicitly: re-emit any captured stderr and
stdout under headers, then, if the execution reports an error, print it
to host stderr and return `None`; otherwise return `exec.results`. -/
def code_interpret (run : SandboxRun) : Option (List Artifact) × Diagnostics :=
  let stderr_prints : List (List Char) :=
    if run.captured_stderr ≠ [] then
      ["[Code Interpreter Warnings/Errors]".toList, run.captured_stderr]
    else []
  let stdout_prints : List (List Char) :=
    if run.captured_stdout ≠ [] then
      ["[Code Interpreter Output]".toList, run.captured_stdout]
    else []
  match run.exec.error with
  | some e =>
      (none, { host_stderr := stderr_prints ++ ["[Code Interpreter ERROR] ".toList ++ e],
               host_stdout := stdout_prints })
  | none => (some run.exec.results, { host_stderr := stderr_prints, host_stdout := stdout_prints })

/-- Role of a chat message sent to the completion service. -/
inductive Role where
  | system
  | user
deriving DecidableEq

/-- One message of the two-message conversation built per turn. -/
structure ChatMessage where
  role : Role
  content : List Char
deriving DecidableEq

/-- Text of the system prompt f-string before the first
`{dataset_path}` interpolation. -/
def system_prompt_pre : List Char :=
  "You're a Python data scientist and data visualization expert.\nYou are given a dataset at path '".toList

/-- Text of the system prompt f-string between the two `{dataset_path}`
interpolations. -/
def system_prompt_mid : List Char :=
  "' and also the user's query.\nYou need to analyze the dataset and answer the user's query with a response and you run Python code to solve them.\nIMPORTANT: Always use the dataset path variable '".toList

/-- Text of the system prompt f-string after the second
`{dataset_path}` interpolation. -/
def system_prompt_suf : List Char :=
  "' in your code when reading the CSV file.".toList

/-- The system prompt built by `chat_with_llm`: the f-string with
`dataset_path` interpolated at its two occurrence sites. -/
def system_prompt (dataset_path : List Char) : List Char :=
  system_prompt_pre ++ (dataset_path ++ (system_prompt_mid ++ (dataset_path ++ system_prompt_suf)))

/-- The `messages` list `chat_with_llm` sends to the completion
service: system prompt first, then the user message, in that order. -/
def turn_messages (user_message dataset_path : List Char) : List ChatMessage :=
  [⟨Role.system, system_prompt dataset_path⟩, ⟨Role.user, user_message⟩]

/-- The reply text of the turn: the first completion choice's message
content, with the completion service modelled as a function from the
sent messages to that content. -/
def turn_content (llm : List ChatMessage → List Char)
    (user_message dataset_path : List Char) : List Char :=
  llm (turn_messages user_message dataset_path)

/-- Everything observable about one `chat_with_llm` call: the returned
pair `(code_results, response_content)` plus whether `st.warning` was
raised, whether the sandbox was invoked, the messages sent to the
completion service, and the diagnostics emitted. -/
structure TurnOutput where
  code_results : Option (List Artifact)
  response : List Char
  messages : List ChatMessage
  warned : Bool
  sandbox_called : Bool
  diagnostics : Diagnostics
deriving DecidableEq

/-- `chat_with_llm(e2b_code_interpreter, user_message, dataset_path)`:
build the system/user messages, obtain the reply, extract a python code
block; if one was found run it through `code_interpret`, otherwise warn
and return `None` results.  The completion service and the sandbox are
passed as functions (`llm`, `sandbox`). -/
def chat_with_llm (llm : List ChatMessage → List Char) (sandbox : List Char → SandboxRun)
    (user_message dataset_path : List Char) : TurnOutput :=
  let messages := turn_messages user_message dataset_path
  let response_content := llm messages
  let python_code := match_code_blocks response_content
  if python_code ≠ [] then
    let r := code_interpret (sandbox python_code)
    { code_results := r.1, response := response_content, messages := messages,
      warned := false, sandbox_called := true, diagnostics := r.2 }
  else
    { code_results := none, response := response_content, messages := messages,
      warned := true, sandbox_called := false, diagnostics := ⟨[], []⟩ }

/-- What `upload_dataset` does: the path it returns and the path it
passes to `code_interpreter.files.write`. -/
structure UploadResult where
  dataset_path : List Char
  write_path : List Char
deriving DecidableEq

/-- `upload_dataset(code_interpreter, uploaded_file)`: derive the path
`f"./{uploaded_file.name}"` from the file name, write the file there,
and return that same path. -/
def upload_dataset (name : List Char) : UploadResult :=
  let dataset_path := "./".toList ++ name
  { dataset_path := dataset_path, write_path := dataset_path }

/-- The body of `main`'s else-branch under the Analyze button: stage
the dataset, then run the turn with the staged path. -/
def analyze_run (llm : List ChatMessage → List Char) (sandbox : List Char → SandboxRun)
    (name query : List Char) : UploadResult × TurnOutput :=
  let up := upload_dataset name
  (up, chat_with_llm llm sandbox query up.dataset_path)

/-- Everything observable about one click of the Analyze button. -/
structure AnalyzeOutcome where
  error_msg : Option (List Char)
  sandbox_created : Bool
  upload : Option UploadResult
  turn : Option TurnOutput
deriving DecidableEq

/-- `main`'s Analyze handler: `if not together_api_key or not
e2b_api_key: st.error(...)` else create the sandbox session, stage the
file and run the turn. -/
def main_analyze (together_api_key e2b_api_key : List Char)
    (llm : List ChatMessage → List Char) (sandbox : List Char → SandboxRun)
    (name query : List Char) : AnalyzeOutcome :=
  if together_api_key = [] ∨ e2b_api_key = [] then
    { error_msg := some "Please enter both API keys in the sidebar.".toList,
      sandbox_created := false, upload := none, turn := none }
  else
    let r := analyze_run llm sandbox name query
    { error_msg := none, sandbox_created := true, upload := some r.1, turn := some r.2 }

/-- Witness sandbox run: a runtime error after partial output. -/
def wrun_err : SandboxRun :=
  { exec := { error := some "ZeroDivisionError: division by zero".toList, results := [] },
    captured_stdout := "partial output before failure".toList,
    captured_stderr := "a warning".toList }

/-- Witness artifact carrying both a non-empty png payload and a show
capability. -/
def wart_png_show : Artifact :=
  { png := some (PyVal.str_v "iVBORw0KGgo=".toList), figure := none,
    showAttr := some (PyVal.obj_v 1), tabular := false }

/-- Witness artifact with an empty (falsy) png payload and a falsy
(`None`) figure attribute. -/
def wart_falsy_figure : Artifact :=
  { png := some (PyVal.str_v []), figure := some PyVal.none_v,
    showAttr := some (PyVal.obj_v 2), tabular := true }

/-- Witness completion service returning a reply with a python block. -/
def wllm_code : List ChatMessage → List Char :=
  fun _ => "Let me compute.\n```python\nprint(1+1)\n```\nDone.".toList

/-- Witness completion service returning a reply with no code fence. -/
def wllm_nocode : List ChatMessage → List Char :=
  fun _ => "I cannot run code right now.".toList

/-- Witness sandbox whose run reports a runtime error. -/
def wsandbox_err : List Char → SandboxRun :=
  fun _ => { exec := { error := some "NameError: name df is not defined".toList, results := [] },
             captured_stdout := "partial".toList, captured_stderr := [] }

/-- Witness sandbox whose run succeeds with zero structured artifacts. -/
def wsandbox_ok_empty : List Char → SandboxRun :=
  fun _ => { exec := { error := none, results := [] },
             captured_stdout := "2\n".toList, captured_stderr := [] }

/-- Witness user query. -/
def wquery : List Char := "Can you compare the averages?".toList

/-- Witness dataset path. -/
def wpath : List Char := "./data.csv".toList

/-- Witness uploaded file name. -/
def wname : List Char := "data.csv".toList

theorem findOcc_some_starts (pat : List Char) :
    ∀ (s : List Char) (k : Nat), findOcc pat s = some k → pat <+: s.drop k := by
  intro s
  induction s with
  | nil =>
    intro k h
    simp only [findOcc] at h
    split at h
    · next hp =>
      injection h with h'
      subst h'
      rw [List.drop_nil]
      exact List.isPrefixOf_iff_prefix.mp hp
    · exact absurd h (by simp)
  | cons c rest ih =>
    intro k h
    simp only [findOcc] at h
    split at h
    · next hp =>
      injection h with h'
      subst h'
      simpa using List.isPrefixOf_iff_prefix.mp hp
    · next hp =>
      cases hfo : findOcc pat rest with
      | none => rw [hfo] at h; simp at h
      | some m =>
        rw [hfo] at h
        simp only [Option.map_some'] at h
        injection h with h'
        subst h'
        simpa using ih m hfo

theorem findOcc_eq_some (pat : List Char) (hne : pat ≠ []) :
    ∀ (s : List Char) (n : Nat), pat <+: s.drop n →
    (∀ j, j < n → ¬ pat <+: s.drop j) → findOcc pat s = some n := by
  intro s
  induction s with
  | nil =>
    intro n h1 _
    rw [List.drop_nil] at h1
    exact absurd (List.prefix_nil.mp h1) hne
  | cons c rest ih =>
    intro n h1 h2
    simp only [findOcc]
    by_cases hp : pat.isPrefixOf (c :: rest) = true
    · rw [if_pos hp]
      rcases Nat.eq_zero_or_pos n with h0 | h0
      · rw [h0]
      · exact absurd (List.isPrefixOf_iff_prefix.mp hp) (by simpa using h2 0 h0)
    · rw [if_neg hp]
      cases n with
      | zero =>
        rw [List.drop_zero] at h1
        exact absurd (List.isPrefixOf_iff_prefix.mpr h1) hp
      | succ m =>
        have h1' : pat <+: rest.drop m := by simpa using h1
        have h2' : ∀ j, j < m → ¬ pat <+: rest.drop j := by
          intro j hj
          simpa using h2 (j + 1) (by omega)
        rw [ih m h1' h2']
        rfl

/-- In `body ++ closer ++ post`, when `closer` does not occur inside
`body`, its first occurrence is exactly at the end of `body`
(occurrences straddling the boundary are impossible because `closer`
starts with a newline and continues with backticks). -/
theorem findOcc_closer_body (body post : List Char)
    (hbody : ∀ j, ¬ closer <+: body.drop j) :
    findOcc closer (body ++ (closer ++ post)) = some body.length := by
  apply findOcc_eq_some closer (by decide)
  · rw [List.drop_left]
    exact List.prefix_append closer post
  · intro j hj hpre
    rw [List.drop_append_of_le_length (Nat.le_of_lt hj)] at hpre
    have hbne : body.drop j ≠ [] := by
      intro hnil
      rw [List.drop_eq_nil_iff] at hnil
      omega
    by_cases hlen : closer.length ≤ (body.drop j).length
    · have htk : closer = (body.drop j).take closer.length := by
        have h1 := List.prefix_iff_eq_take.mp hpre
        rwa [List.take_append_of_le_length hlen] at h1
      exact hbody j (List.prefix_iff_eq_take.mpr htk)
    · push_neg at hlen
      have htake : closer = body.drop j ++ closer.take (closer.length - (body.drop j).length) := by
        have h1 := List.prefix_iff_eq_take.mp hpre
        rw [List.take_append_eq_append_take, List.take_of_length_le (Nat.le_of_lt hlen),
          List.take_append_of_le_length (by omega)] at h1
        exact h1
      have hdrop : closer.drop (body.drop j).length
          = closer.take (closer.length - (body.drop j).length) := by
        conv_lhs => rw [htake]
        rw [List.drop_left]
      have hlc : closer.length = 4 := by decide
      have hpos : 0 < (body.drop j).length := List.length_pos.mpr hbne
      have hn : (body.drop j).length = 1 ∨ (body.drop j).length = 2 ∨ (body.drop j).length = 3 := by
        omega
      rcases hn with h | h | h <;> rw [h] at hdrop <;> exact absurd hdrop (by decide)

theorem pattern_search_found (s : List Char) (k : Nat)
    (h1 : opener.isPrefixOf s = true)
    (h2 : findOcc closer (s.drop opener.length) = some k) :
    pattern_search s = some ((s.drop opener.length).take k) := by
  cases s with
  | nil => exact absurd h1 (by decide)
  | cons c rest => simp [pattern_search, h1, h2]

theorem pattern_search_skip_not_open (c : Char) (rest : List Char)
    (h : opener.isPrefixOf (c :: rest) = false) :
    pattern_search (c :: rest) = pattern_search rest := by
  simp [pattern_search, h]

theorem pattern_search_skip_of_no_close (c : Char) (rest : List Char)
    (h : findOcc closer ((c :: rest).drop opener.length) = none) :
    pattern_search (c :: rest) = pattern_search rest := by
  by_cases hp : opener.isPrefixOf (c :: rest) = true <;> simp [pattern_search, hp, h]

theorem pattern_search_first_block (body post : List Char)
    (hbody : ∀ j, ¬ closer <+: body.drop j) :
    ∀ (pre : List Char),
    (∀ j, j < pre.length → ¬ opener <+: (pre ++ (opener ++ (body ++ (closer ++ post)))).drop j) →
    pattern_search (pre ++ (opener ++ (body ++ (closer ++ post)))) = some body := by
  intro pre
  induction pre with
  | nil =>
    intro _
    rw [List.nil_append]
    have h1 : opener.isPrefixOf (opener ++ (body ++ (closer ++ post))) = true :=
      List.isPrefixOf_iff_prefix.mpr (List.prefix_append _ _)
    have hdrop : (opener ++ (body ++ (closer ++ post))).drop opener.length
        = body ++ (closer ++ post) := List.drop_left _ _
    have h2 : findOcc closer ((opener ++ (body ++ (closer ++ post))).drop opener.length)
        = some body.length := by
      rw [hdrop]
      exact findOcc_closer_body body post hbody
    rw [pattern_search_found _ _ h1 h2, hdrop, List.take_left]
  | cons c pre' ih =>
    intro hpre
    have h0 : ¬ opener <+: (c :: pre' ++ (opener ++ (body ++ (closer ++ post)))) := by
      simpa using hpre 0 (by simp)
    have hfalse : opener.isPrefixOf (c :: (pre' ++ (opener ++ (body ++ (closer ++ post))))) = false :=
      Bool.eq_false_iff.mpr (fun hc => h0 (List.isPrefixOf_iff_prefix.mp hc))
    rw [List.cons_append, pattern_search_skip_not_open _ _ hfalse]
    apply ih
    intro j hj
    have := hpre (j + 1) (by simp; omega)
    simpa using this

theorem not_prefix_all_of_bounded (p s : List Char) (hp : p ≠ [])
    (h : ∀ j, j < s.length → ¬ p <+: s.drop j) : ∀ j, ¬ p <+: s.drop j := by
  intro j hj
  by_cases hlt : j < s.length
  · exact h j hlt hj
  · rw [List.drop_eq_nil_of_le (by omega)] at hj
    exact hp (List.prefix_nil.mp hj)

/-- C1: for a reply of the shape `pre ++ "```python\n" ++ body ++ "\n```" ++ post`
where no opening fence starts inside `pre` (so this is the first
python-tagged block) and the closing fence does not occur inside `body`
(so the block is well formed and `body` is its full interior),
`match_code_blocks` returns exactly `body`, byte for byte.  `post` is
arbitrary, so any further python-tagged blocks after the first are
ignored. -/
theorem match_code_blocks_first_block (pre body post : List Char)
    (hpre : ∀ j, j < pre.length → ¬ opener <+: (pre ++ (opener ++ (body ++ (closer ++ post)))).drop j)
    (hbody : ∀ j, ¬ closer <+: body.drop j) :
    match_code_blocks (pre ++ (opener ++ (body ++ (closer ++ post)))) = body := by
  rw [match_code_blocks, pattern_search_first_block body post hbody pre hpre]

theorem match_code_blocks_first_block_witness :
    match_code_blocks (w1pre ++ (opener ++ (w1body ++ (closer ++ w1post)))) = w1body :=
  match_code_blocks_first_block w1pre w1body w1post (by decide)
    (not_prefix_all_of_bounded closer w1body (by decide) (by decide))

theorem pattern_search_none (s : List Char)
    (h : ∀ i j, ¬ (opener <+: s.drop i ∧ closer <+: s.drop (i + opener.length + j))) :
    pattern_search s = none := by
  induction s with
  | nil => rfl
  | cons c rest ih =>
    have hshift : ∀ i j, ¬ (opener <+: rest.drop i ∧ closer <+: rest.drop (i + opener.length + j)) := by
      intro i j hc
      apply h (i + 1) j
      refine ⟨by simpa using hc.1, ?_⟩
      have harith : i + 1 + opener.length + j = (i + opener.length + j) + 1 := by omega
      rw [harith, List.drop_succ_cons]
      exact hc.2
    by_cases hp : opener.isPrefixOf (c :: rest) = true
    · cases hf : findOcc closer ((c :: rest).drop opener.length) with
      | some k =>
        exfalso
        have hcl := findOcc_some_starts closer _ _ hf
        rw [List.drop_drop] at hcl
        apply h 0 k
        refine ⟨by simpa using List.isPrefixOf_iff_prefix.mp hp, ?_⟩
        have harith : 0 + opener.length + k = opener.length + k := by omega
        rw [harith]
        exact hcl
      | none =>
        rw [pattern_search_skip_of_no_close _ _ hf]
        exact ih hshift
    · rw [pattern_search_skip_not_open _ _ (Bool.eq_false_iff.mpr hp)]
      exact ih hshift

/-- C7: when the reply contains no python-tagged fenced code block —
i.e. no occurrence of the opening fence `"```python\n"` followed
anywhere later by the closing fence `"\n```"` (which covers replies
with fences tagged for another language and untagged fences, since
those never produce the opening fence) — `match_code_blocks` returns
the empty string. -/
theorem match_code_blocks_no_python_block (s : List Char)
    (h : ∀ i j, ¬ (opener <+: s.drop i ∧ closer <+: s.drop (i + opener.length + j))) :
    match_code_blocks s = [] := by
  rw [match_code_blocks, pattern_search_none s h]

theorem match_code_blocks_no_python_block_witness :
    match_code_blocks w7reply = [] :=
  match_code_blocks_no_python_block w7reply
    (fun i j hc => not_prefix_all_of_bounded opener w7reply (by decide) (by decide) i hc.1)

/-- C2: when the sandbox session reports a runtime error,
`code_interpret` returns the failure outcome `none` and no artifacts;
any output captured on stdout/stderr before the failure appears only in
the diagnostic channels (host stdout/stderr prints), never in the
result value. -/
theorem code_interpret_error_returns_none (run : SandboxRun) (e : List Char)
    (h : run.exec.error = some e) :
    (code_interpret run).1 = none ∧
    (run.captured_stdout ≠ [] → run.captured_stdout ∈ (code_interpret run).2.host_stdout) ∧
    (run.captured_stderr ≠ [] → run.captured_stderr ∈ (code_interpret run).2.host_stderr) := by
  refine ⟨?_, ?_, ?_⟩
  · simp [code_interpret, h]
  · intro hne
    simp [code_interpret, h, hne]
  · intro hne
    simp [code_interpret, h, hne]

theorem code_interpret_error_returns_none_witness :
    (code_interpret wrun_err).1 = none ∧
    wrun_err.captured_stdout ∈ (code_interpret wrun_err).2.host_stdout := by
  have h := code_interpret_error_returns_none wrun_err
    "ZeroDivisionError: division by zero".toList rfl
  exact ⟨h.1, h.2.1 (by decide)⟩

/-- C3: the rendering loop probes capabilities in the fixed priority
order png (non-empty payload), then figure, then show, then tabular,
then raw, the first matching probe deciding the category; in particular
an artifact with a truthy png payload and a show capability is
classified `image`, never `interactiveChart`. -/
theorem classify_result_priority (r : Artifact) :
    (png_truthy r = true → classify_result r = Category.image) ∧
    (png_truthy r = false → r.figure.isSome = true → classify_result r = Category.figure) ∧
    (png_truthy r = false → r.figure = none → r.showAttr.isSome = true →
      classify_result r = Category.interactiveChart) ∧
    (png_truthy r = false → r.figure = none → r.showAttr = none → r.tabular = true →
      classify_result r = Category.tabular) ∧
    (png_truthy r = false → r.figure = none → r.showAttr = none → r.tabular = false →
      classify_result r = Category.raw) ∧
    (png_truthy r = true → r.showAttr.isSome = true →
      classify_result r ≠ Category.interactiveChart) := by
  refine ⟨fun h1 => ?_, fun h1 h2 => ?_, fun h1 h2 h3 => ?_, fun h1 h2 h3 h4 => ?_,
    fun h1 h2 h3 h4 => ?_, fun h1 _ => ?_⟩ <;>
    simp [classify_result, h1, *]

theorem classify_result_priority_witness :
    classify_result wart_png_show = Category.image ∧
    classify_result wart_png_show ≠ Category.interactiveChart :=
  ⟨(classify_result_priority wart_png_show).1 (by decide),
   (classify_result_priority wart_png_show).2.2.2.2.2 (by decide) (by decide)⟩

/-- C4: when a code block was extracted but its sandbox execution
fails, the turn still returns the full LLM reply as its reply text with
absent (`none`) artifacts, and the failure detail goes only to the
host-stderr diagnostic channel.  `chat_with_llm` is a total function
here, so no exception escapes to the caller. -/
theorem chat_with_llm_exec_failure (llm : List ChatMessage → List Char)
    (sandbox : List Char → SandboxRun) (um dp e : List Char)
    (hcode : match_code_blocks (turn_content llm um dp) ≠ [])
    (herr : (sandbox (match_code_blocks (turn_content llm um dp))).exec.error = some e) :
    (chat_with_llm llm sandbox um dp).code_results = none ∧
    (chat_with_llm llm sandbox um dp).response = turn_content llm um dp ∧
    ("[Code Interpreter ERROR] ".toList ++ e)
      ∈ (chat_with_llm llm sandbox um dp).diagnostics.host_stderr := by
  have hc : match_code_blocks (llm (turn_messages um dp)) ≠ [] := hcode
  have he : (sandbox (match_code_blocks (llm (turn_messages um dp)))).exec.error = some e := herr
  simp only [chat_with_llm]
  rw [if_pos hc]
  refine ⟨?_, rfl, ?_⟩ <;> simp [code_interpret, he]

theorem chat_with_llm_exec_failure_witness :
    (chat_with_llm wllm_code wsandbox_err wquery wpath).code_results = none ∧
    (chat_with_llm wllm_code wsandbox_err wquery wpath).response
      = turn_content wllm_code wquery wpath := by
  have h := chat_with_llm_exec_failure wllm_code wsandbox_err wquery wpath
    "NameError: name df is not defined".toList (by decide) rfl
  exact ⟨h.1, h.2.1⟩

/-- C5: when the extractor finds no python code block in the reply, the
turn returns the reply text with absent (`none`) artifacts, raises the
warning notice, and never invokes the sandbox — the outcome is the same
for every sandbox function. -/
theorem chat_with_llm_no_code (llm : List ChatMessage → List Char)
    (sandbox : List Char → SandboxRun) (um dp : List Char)
    (hcode : match_code_blocks (turn_content llm um dp) = []) :
    (chat_with_llm llm sandbox um dp).code_results = none ∧
    (chat_with_llm llm sandbox um dp).response = turn_content llm um dp ∧
    (chat_with_llm llm sandbox um dp).warned = true ∧
    (chat_with_llm llm sandbox um dp).sandbox_called = false ∧
    (∀ sandbox2 : List Char → SandboxRun,
      chat_with_llm llm sandbox2 um dp = chat_with_llm llm sandbox um dp) := by
  have hc : match_code_blocks (llm (turn_messages um dp)) = [] := hcode
  have key : ∀ sb : List Char → SandboxRun, chat_with_llm llm sb um dp =
      { code_results := none, response := turn_content llm um dp,
        messages := turn_messages um dp, warned := true, sandbox_called := false,
        diagnostics := ⟨[], []⟩ } := by
    intro sb
    simp only [chat_with_llm]
    rw [if_neg (fun hne => hne hc)]
    rfl
  rw [key sandbox]
  exact ⟨rfl, rfl, rfl, rfl, fun sb2 => key sb2⟩

theorem chat_with_llm_no_code_witness :
    (chat_with_llm wllm_nocode wsandbox_ok_empty wquery wpath).code_results = none ∧
    (chat_with_llm wllm_nocode wsandbox_ok_empty wquery wpath).warned = true ∧
    (chat_with_llm wllm_nocode wsandbox_ok_empty wquery wpath).sandbox_called = false := by
  have h := chat_with_llm_no_code wllm_nocode wsandbox_ok_empty wquery wpath (by decide)
  exact ⟨h.1, h.2.2.1, h.2.2.2.1⟩

/-- C6: when code was extracted and the sandbox run succeeds with zero
structured artifacts, the returned artifacts value is the empty
sequence `some []`, which is distinct from the absent value `none` used
when no code block was extracted. -/
theorem chat_with_llm_empty_results (llm : List ChatMessage → List Char)
    (sandbox : List Char → SandboxRun) (um dp : List Char)
    (hcode : match_code_blocks (turn_content llm um dp) ≠ [])
    (hok : (sandbox (match_code_blocks (turn_content llm um dp))).exec.error = none)
    (hres : (sandbox (match_code_blocks (turn_content llm um dp))).exec.results = []) :
    (chat_with_llm llm sandbox um dp).code_results = some [] ∧
    (chat_with_llm llm sandbox um dp).code_results ≠ none := by
  have hc : match_code_blocks (llm (turn_messages um dp)) ≠ [] := hcode
  have ho : (sandbox (match_code_blocks (llm (turn_messages um dp)))).exec.error = none := hok
  have hr : (sandbox (match_code_blocks (llm (turn_messages um dp)))).exec.results = [] := hres
  simp only [chat_with_llm]
  rw [if_pos hc]
  constructor <;> simp [code_interpret, ho, hr]

theorem chat_with_llm_empty_results_witness :
    (chat_with_llm wllm_code wsandbox_ok_empty wquery wpath).code_results = some [] := by
  have h := chat_with_llm_empty_results wllm_code wsandbox_ok_empty wquery wpath
    (by decide) rfl rfl
  exact h.1

/-- C8: the dataset path is derived deterministically from the uploaded
file's name as `"./" ++ name`, the path written to the sandbox equals
the path returned, and exactly that string is interpolated (twice) into
the system prompt of the messages the turn sends to the completion
service. -/
theorem upload_path_consistency (llm : List ChatMessage → List Char)
    (sandbox : List Char → SandboxRun) (name query : List Char) :
    (analyze_run llm sandbox name query).1.write_path = "./".toList ++ name ∧
    (analyze_run llm sandbox name query).1.dataset_path
      = (analyze_run llm sandbox name query).1.write_path ∧
    (analyze_run llm sandbox name query).2.messages =
      [⟨Role.system,
        system_prompt_pre ++ ((analyze_run llm sandbox name query).1.write_path
          ++ (system_prompt_mid ++ ((analyze_run llm sandbox name query).1.write_path
            ++ system_prompt_suf)))⟩,
       ⟨Role.user, query⟩] := by
  refine ⟨rfl, rfl, ?_⟩
  show (chat_with_llm llm sandbox query ("./".toList ++ name)).messages = _
  by_cases hc : match_code_blocks (llm (turn_messages query ("./".toList ++ name))) ≠ [] <;>
    simp only [chat_with_llm] <;>
    [rw [if_pos hc]; rw [if_neg hc]] <;>
    rfl

/-- C9: when either API key is the empty string, the Analyze handler
surfaces the error message and performs no external action: no sandbox
session is created, no file is staged, no turn is run, and the outcome
does not depend on the completion-service or sandbox functions at
all. -/
theorem main_analyze_missing_keys (tk ek : List Char)
    (llm : List ChatMessage → List Char) (sandbox : List Char → SandboxRun)
    (name query : List Char) (h : tk = [] ∨ ek = []) :
    (main_analyze tk ek llm sandbox name query).error_msg
      = some "Please enter both API keys in the sidebar.".toList ∧
    (main_analyze tk ek llm sandbox name query).sandbox_created = false ∧
    (main_analyze tk ek llm sandbox name query).upload = none ∧
    (main_analyze tk ek llm sandbox name query).turn = none ∧
    (∀ (llm2 : List ChatMessage → List Char) (sandbox2 : List Char → SandboxRun),
      main_analyze tk ek llm2 sandbox2 name query
        = main_analyze tk ek llm sandbox name query) := by
  have key : ∀ (l : List ChatMessage → List Char) (s : List Char → SandboxRun),
      main_analyze tk ek l s name query =
      { error_msg := some "Please enter both API keys in the sidebar.".toList,
        sandbox_created := false, upload := none, turn := none } := by
    intro l s
    simp only [main_analyze]
    rw [if_pos h]
  rw [key llm sandbox]
  exact ⟨rfl, rfl, rfl, rfl, fun l2 s2 => key l2 s2⟩

theorem main_analyze_missing_keys_witness :
    (main_analyze [] "an-e2b-key".toList wllm_code wsandbox_ok_empty wname wquery).error_msg
      = some "Please enter both API keys in the sidebar.".toList ∧
    (main_analyze [] "an-e2b-key".toList wllm_code wsandbox_ok_empty wname wquery).sandbox_created
      = false ∧
    (main_analyze [] "an-e2b-key".toList wllm_code wsandbox_ok_empty wname wquery).turn = none := by
  have h := main_analyze_missing_keys [] "an-e2b-key".toList wllm_code wsandbox_ok_empty
    wname wquery (Or.inl rfl)
  exact ⟨h.1, h.2.1, h.2.2.2.1⟩

/-- C10: for an artifact whose png probe fails (absent or falsy
payload), the figure and show probes test attribute presence only: a
figure attribute that exists with any value — including the falsy
`None` — yields category `figure`, and likewise a present show
attribute (when figure is absent) yields `interactiveChart`. -/
theorem classify_result_presence_only (r : Artifact) (hpng : png_truthy r = false) :
    (∀ v, r.figure = some v → classify_result r = Category.figure) ∧
    (r.figure = none → ∀ v, r.showAttr = some v →
      classify_result r = Category.interactiveChart) := by
  constructor
  · intro v hv
    simp [classify_result, hpng, hv]
  · intro hf v hv
    simp [classify_result, hpng, hf, hv]

theorem classify_result_presence_only_witness :
    classify_result wart_falsy_figure = Category.figure :=
  (classify_result_presence_only wart_falsy_figure (by decide)).1 PyVal.none_v rfl
